import Mathlib

/-!
Shallow embedding of the KRATOS multi-cluster operations layer
(`src/agents/k8s_agent.py`, class `K8sAgent`), with the orchestrator
bridge (`src/orchestrator/controller.py`) as calling context.

Results returned by the agent are Python dicts with string values on the
paths modelled here; we embed them as association lists of string pairs.
External effects (kubeconfig loading, the Kubernetes API) are passed in
explicitly as oracle arguments, so each agent method becomes a pure
function of its inputs, the agent state and the oracle outcomes.
-/

namespace Kratos

/-- A Python dict with string keys and string values, as returned by the
agent methods on the paths modelled here. -/
abbrev Dict := List (String × String)

/-- Lookup `d.get k`: the value bound to key `k`, if any (first binding wins;
the builders below never bind a key twice). -/
def Dict.get (d : Dict) (k : String) : Option String :=
  (d.find? (fun p => p.1 == k)).map (fun p => p.2)

/-- Python assignment `d[k] = v`: replace any existing binding of `k`, else add it. -/
def Dict.set (d : Dict) (k v : String) : Dict :=
  (d.filter (fun p => p.1 != k)) ++ [(k, v)]

/-- A single-quote character, used in the agent's message strings. -/
def sq : String := String.singleton (Char.ofNat 39)

/-- The mutable state of `K8sAgent` relevant to cluster switching:
the registry keys (`self.clusters`, insertion order) and the active
cluster (`self.current_cluster`). -/
structure AgentState where
  clusters : List String
  current : Option String
  deriving Repr, DecidableEq

/-- Rendering of `self.current_cluster` as the string Python would embed in a
message (`None` prints as `None`). -/
def AgentState.currentStr (st : AgentState) : String :=
  match st.current with
  | some c => c
  | none => "None"

/-- The not-found message of `K8sAgent.switch_cluster`
(k8s_agent.py:338): lists the registered cluster names. -/
def switchNotFoundMsg (cluster_name : String) (available : List String) : String :=
  "Cluster " ++ sq ++ cluster_name ++ sq ++ " not found. Available clusters: "
    ++ String.intercalate ", " available

/-- Model of `K8sAgent.switch_cluster` (k8s_agent.py:327-364).
`loadOk` is the outcome of `config.load_kube_config` (an exception there is
caught by the outer handler with message `loadErr`); `probeOk` is the outcome
of the post-switch version probe, which is only logged. Returns the result
dict and the agent state after the call. -/
def switch_cluster (st : AgentState) (cluster_name : String)
    (loadOk : Bool) (loadErr : String) (probeOk : Bool) : Dict × AgentState :=
  if cluster_name ∉ st.clusters then
    ([("status", "error"),
      ("message", switchNotFoundMsg cluster_name st.clusters)], st)
  else if loadOk = false then
    ([("status", "error"), ("message", loadErr)], st)
  else
    -- probe failure (`probeOk = false`) is logged only; the result is the same
    let _ := probeOk
    ([("status", "success"),
      ("message", "Switched to cluster " ++ sq ++ cluster_name ++ sq),
      ("cluster", cluster_name)],
     { st with current := some cluster_name })

/-!
Concurrency model for the compound "switch-if-needed, then operate"
sequences. Every agent operation that takes an explicit `cluster`
parameter (e.g. `K8sAgent.get_pods`, k8s_agent.py:366-379) runs

    if cluster and cluster != self.current_cluster:
        await self.switch_cluster(cluster)       -- sets current_cluster
    config.load_kube_config(context=self.current_cluster)
    <operation against the loaded context>

with no lock or other serialization primitive anywhere in the repository
(the orchestrator invokes these from synchronous wrappers on fresh event
loops, controller.py:145-155, so invocations may interleave). We model a
compound invocation as two steps on the shared `current_cluster` cell:
the switch-if-needed step, then the operate step, which observes whatever
cluster is current when it runs.
-/

/-- One step of a compound invocation. -/
inductive Step where
  | switchIfNeeded : Step
  | operate : Step
  deriving Repr, DecidableEq

/-- The compound "switch-if-needed, then operate" sequence
(k8s_agent.py:372-379 for `get_pods`). -/
def compoundSeq : List Step := [Step.switchIfNeeded, Step.operate]

/-- Shared state seen by concurrent compound invocations: the active
cluster, plus a log of `(requestedCluster, activeClusterAtOperate)`
pairs recording which cluster was active when each operate step ran. -/
structure ConcState where
  current : String
  observed : List (String × String)
  deriving Repr, DecidableEq

/-- Execute one step of an invocation whose explicit target is `target`. -/
def execStep (target : String) (st : ConcState) : Step → ConcState
  | Step.switchIfNeeded =>
      if target ≠ st.current then { st with current := target } else st
  | Step.operate =>
      { st with observed := st.observed ++ [(target, st.current)] }

/-- Run two compound invocations (targets `tA`, `tB`, remaining step lists
`pa`, `pb`) under a schedule: `true` lets invocation A take its next step,
`false` lets B. No serialization primitive constrains the schedule, because
the source acquires none. -/
def runSched (tA tB : String) :
    List Bool → List Step → List Step → ConcState → ConcState
  | [], _, _, st => st
  | true :: rest, [], pb, st => runSched tA tB rest [] pb st
  | true :: rest, s :: pa, pb, st => runSched tA tB rest pa pb (execStep tA st s)
  | false :: rest, pa, [], st => runSched tA tB rest pa [] st
  | false :: rest, pa, s :: pb, st => runSched tA tB rest pa pb (execStep tB st s)

/-!
Health aggregator (`K8sAgent.get_cluster_health`, k8s_agent.py:622-661).
Python float arithmetic is embedded as exact rational arithmetic; `round(x, 2)`
is round-half-to-even on hundredths.
-/

/-- Round a rational to the nearest integer, ties to even
(Python's `round` on an exact value). -/
def roundHalfEven (q : ℚ) : ℤ :=
  let f := ⌊q⌋
  if q - f < 1/2 then f
  else if q - f > 1/2 then f + 1
  else if Even f then f else f + 1

/-- Python's `round(x, 2)`. -/
def round2 (q : ℚ) : ℚ := (roundHalfEven (q * 100) : ℚ) / 100

/-- The health-score computation of `get_cluster_health`
(k8s_agent.py:643-647 together with the rounding at 652), as a function of
the four counts it derives from the node-metrics and system-pod queries. -/
def computeHealthScore (ready_nodes total_nodes running_pods total_pods : ℕ) : ℚ :=
  let s1 : ℚ := 100
  let s2 := if total_nodes > 0 then s1 * ((ready_nodes : ℚ) / (total_nodes : ℚ)) else s1
  let s3 := if total_pods > 0 then s2 * ((running_pods : ℚ) / (total_pods : ℚ)) else s2
  round2 s3

/-- Outcome of an agent query as consumed by `get_cluster_health`: the
`success` payload carries the fields the caller reads with `.get`; an
`error` dict has no such fields, so every `.get(field, default)` on it
yields the default. -/
inductive OpResult (α : Type) where
  | success (payload : α)
  | error (message : String)
  deriving Repr, DecidableEq

/-- A node summary as produced by `get_node_metrics` (k8s_agent.py:585-604),
restricted to the fields `get_cluster_health` reads. -/
structure NodeInfo where
  name : String
  status : String
  deriving Repr, DecidableEq

/-- A pod summary as produced by `get_pods` (k8s_agent.py:412-427),
restricted to the fields `get_cluster_health` reads. -/
structure PodSummary where
  name : String
  status : String
  deriving Repr, DecidableEq

/-- The success payload of `get_node_metrics` (k8s_agent.py:607-612). -/
structure NodesPayload where
  nodes : List NodeInfo
  node_count : ℕ
  deriving Repr, DecidableEq

/-- The success payload of `get_pods` (k8s_agent.py:431-437), restricted to
the `pods` field. -/
structure PodsPayload where
  pods : List PodSummary
  deriving Repr, DecidableEq

/-- The success payload of `get_cluster_health` (k8s_agent.py:649-661). -/
structure HealthReport where
  cluster_name : Option String
  health_score : ℚ
  nodes_ready : ℕ
  nodes_total : ℕ
  system_pods_running : ℕ
  system_pods_total : ℕ
  deriving Repr, DecidableEq

/-- Model of `K8sAgent.get_cluster_health` (k8s_agent.py:622-661) on the
no-explicit-cluster path, as a function of the results of its two
sub-queries `get_node_metrics` and `get_pods("kube-system")`.
`node_metrics.get("nodes", [])` on an error dict yields `[]`,
`node_metrics.get("node_count", 0)` yields `0`, and
`system_pods.get("pods", [])` yields `[]`. -/
def get_cluster_health (current : Option String)
    (node_metrics : OpResult NodesPayload) (system_pods : OpResult PodsPayload) :
    OpResult HealthReport :=
  let nodes := match node_metrics with
    | OpResult.success p => p.nodes
    | OpResult.error _ => []
  let total_nodes := match node_metrics with
    | OpResult.success p => p.node_count
    | OpResult.error _ => 0
  let pods := match system_pods with
    | OpResult.success p => p.pods
    | OpResult.error _ => []
  let ready_nodes := (nodes.filter (fun n => n.status == "Ready")).length
  let running_system_pods := (pods.filter (fun p => p.status == "Running")).length
  let total_system_pods := pods.length
  OpResult.success
    { cluster_name := current
      health_score := computeHealthScore ready_nodes total_nodes
        running_system_pods total_system_pods
      nodes_ready := ready_nodes
      nodes_total := total_nodes
      system_pods_running := running_system_pods
      system_pods_total := total_system_pods }

/-!
Dispatcher (`K8sAgent.execute_function`, k8s_agent.py:262-306) and the
scale operation (`K8sAgent.scale_deployment`, k8s_agent.py:671-709).
-/

/-- A call issued to the cluster API, recorded by the instrumented
cluster-access model. -/
inductive ApiCall where
  | patchScale (deployment_name : String) (ns : String) (replicas : ℤ)
  deriving Repr, DecidableEq

/-- A handler as `execute_function` sees it: given the keyword arguments it
returns either a result dict (`Except.ok`) or a raised exception message
(`Except.error`), together with the cluster API calls it issued. -/
def Handler (α : Type) : Type := α → (Except String Dict) × List ApiCall

/-- Model of `K8sAgent.execute_function` (k8s_agent.py:262-306). `function_map` is
the static name→handler table (k8s_agent.py:272-282); `agent_name` is
`self.name`, `timestamp` the value of `datetime.utcnow().isoformat()`.
On a handler result the metadata keys are assigned into the result dict
(k8s_agent.py:293-295); a raised exception is caught and converted to an
error dict (k8s_agent.py:299-306). -/
def execute_function {α : Type} (initialized : Bool) (agent_name : String)
    (function_map : String → Option (Handler α)) (timestamp : String)
    (function_name : String) (kwargs : α) : Dict × List ApiCall :=
  if initialized = false then
    ([("status", "error"), ("message", "Agent not initialized")], [])
  else
    match function_map function_name with
    | none =>
        ([("status", "error"),
          ("message", "Unknown function: " ++ function_name)], [])
    | some f =>
        match f kwargs with
        | (Except.ok result, calls) =>
            ((((result.set "agent" agent_name).set "function" function_name).set
                "timestamp" timestamp), calls)
        | (Except.error e, calls) =>
            ([("status", "error"), ("message", e),
              ("agent", agent_name), ("function", function_name)], calls)

/-- The `minimum` constraint declared for the `replicas` parameter of
`scale_deployment` in the static catalog
(`K8sAgent.get_function_definitions`, k8s_agent.py:215-219). The catalog is
data handed to the external caller; `execute_function` never reads it. -/
def scale_replicas_declared_minimum : Option ℤ := some 0

/-- Keyword arguments of the scale operation. -/
structure ScaleParams where
  deployment_name : String
  replicas : ℤ
  ns : String
  deriving Repr, DecidableEq

/-- Model of `K8sAgent.scale_deployment` (k8s_agent.py:671-709) on the
no-explicit-cluster path. The patch call
`patch_namespaced_deployment_scale` is always issued with the given
`replicas` value, whatever its sign (k8s_agent.py:685-690); `patchResult`
is its outcome, an exception being caught and converted to an error dict
(k8s_agent.py:701-709). The operation itself never raises. -/
def scale_deployment (current : Option String) (patchResult : Except String Unit) :
    Handler ScaleParams := fun p =>
  let currentStr := match current with
    | some c => c
    | none => "None"
  let call := ApiCall.patchScale p.deployment_name p.ns p.replicas
  match patchResult with
  | Except.ok _ =>
      (Except.ok
        [("status", "success"),
         ("message", "Deployment " ++ p.deployment_name ++ " scaled to "
            ++ toString p.replicas ++ " replicas"),
         ("deployment", p.deployment_name),
         ("namespace", p.ns),
         ("cluster", currentStr),
         ("replicas", toString p.replicas)], [call])
  | Except.error e =>
      (Except.ok
        [("status", "error"), ("message", e),
         ("deployment", p.deployment_name),
         ("namespace", p.ns),
         ("cluster", currentStr)], [call])

/-- The agent's function table restricted to the scale operation
(k8s_agent.py:272-282 binds `"scale_deployment"` to
`self.scale_deployment`). -/
def scaleFunctionMap (current : Option String) (patchResult : Except String Unit) :
    String → Option (Handler ScaleParams) := fun fn =>
  if fn = "scale_deployment" then some (scale_deployment current patchResult)
  else none

/-!
Manifest application (`K8sAgent.apply_yaml`, k8s_agent.py:503-567) on the
no-explicit-cluster path. A parsed manifest is a list of optional
documents (`None` for a blank document, skipped by `if not doc`). The
external cluster API is modelled by the set of existing resource
identities plus an injectable non-conflict create failure: a create
raises 409 iff the identity already exists (then the code patches
instead); any injected failure is a non-409 exception whose re-raise
aborts the loop and is caught by the outer handler.
-/

/-- One manifest document, reduced to the fields `apply_yaml` reads:
`kind`, `metadata.name`, and `metadata.namespace` (absent means the
default `"default"` is used, k8s_agent.py:526). -/
structure Doc where
  kind : String
  name : String
  ns : Option String
  deriving Repr, DecidableEq

/-- A resource identity in the cluster. -/
structure Resource where
  kind : String
  ns : String
  name : String
  deriving Repr, DecidableEq

/-- Model of the external cluster API as seen by `apply_yaml`:
which resource identities exist, and an injected non-conflict failure
for create calls (`none` = the create behaves normally). -/
structure K8sApi where
  existing : List Resource
  createFail : Resource → Option String

/-- One entry of the `results` list built by `apply_yaml`
(k8s_agent.py:534-550). -/
structure ApplyEntry where
  resource : String
  action : String
  cluster : Option String
  deriving Repr, DecidableEq

/-- The dict returned by `apply_yaml`: the success dict
(k8s_agent.py:554-559) carries a `results` key; the error dict built by
the outer handler (k8s_agent.py:563-567) carries only
`status`/`message`/`cluster`. -/
inductive ApplyResult where
  | success (message : String) (cluster : Option String) (results : List ApplyEntry)
  | error (message : String) (cluster : Option String)
  deriving Repr, DecidableEq

/-- Accessor `result.get("results")`: the `results` field of an `apply_yaml`
result dict, when present. -/
def ApplyResult.resultsField : ApplyResult → Option (List ApplyEntry)
  | ApplyResult.success _ _ rs => some rs
  | ApplyResult.error _ _ => none

/-- Accessor `result["status"]` of an `apply_yaml` result dict. -/
def ApplyResult.statusOf : ApplyResult → String
  | ApplyResult.success _ _ _ => "success"
  | ApplyResult.error _ _ => "error"

/-- The per-document loop of `apply_yaml` (k8s_agent.py:518-552) together
with the surrounding try/except: blank documents and unsupported kinds are
skipped; a create that raises 409 falls back to a patch (which succeeds
here, since the identity exists); an injected non-conflict create failure
is re-raised, aborting the loop, and the outer handler returns the error
dict — without the results accumulated so far. Returns the result and the
cluster API state after the call. -/
def applyLoop (current : Option String) :
    List (Option Doc) → K8sApi → List ApplyEntry → ApplyResult × K8sApi
  | [], api, results =>
      (ApplyResult.success
        ("Applied " ++ toString results.length ++ " resources to cluster "
          ++ (match current with | some c => c | none => "None"))
        current results, api)
  | none :: rest, api, results => applyLoop current rest api results
  | some doc :: rest, api, results =>
      if doc.kind = "Deployment" ∨ doc.kind = "Service" then
        let ns := doc.ns.getD "default"
        let r : Resource := { kind := doc.kind, ns := ns, name := doc.name }
        let entry := fun action =>
          { resource := doc.kind ++ "/" ++ doc.name
            action := action
            cluster := current : ApplyEntry }
        match api.createFail r with
        | some e => (ApplyResult.error e current, api)
        | none =>
            if r ∈ api.existing then
              applyLoop current rest api (results ++ [entry "updated"])
            else
              applyLoop current rest
                { api with existing := api.existing ++ [r] }
                (results ++ [entry "created"])
      else
        applyLoop current rest api results

/-- Model of `K8sAgent.apply_yaml` (k8s_agent.py:503-567) on the
no-explicit-cluster path, over an already-parsed document list. -/
def apply_yaml (current : Option String) (docs : List (Option Doc))
    (api : K8sApi) : ApplyResult × K8sApi :=
  applyLoop current docs api []

/-!
Container readiness in `K8sAgent.get_pods` (k8s_agent.py:419-426).
-/

/-- A container declared in a pod spec (`pod.spec.containers`). -/
structure ContainerSpec where
  name : String
  image : String
  deriving Repr, DecidableEq

/-- One entry of `pod.status.container_statuses`. -/
structure ContainerStatus where
  name : String
  ready : Bool
  deriving Repr, DecidableEq

/-- The `ready` flag computed for one declared container
(k8s_agent.py:423): `any(cs.name == container.name and cs.ready for cs in
(pod.status.container_statuses or []))`. `statuses = none` embeds a pod
whose `container_statuses` is `None`. -/
def containerReady (container_name : String)
    (statuses : Option (List ContainerStatus)) : Bool :=
  (statuses.getD []).any (fun cs => cs.name == container_name && cs.ready)

/-- One entry of the `containers` list in a pod summary
(k8s_agent.py:419-426). -/
structure ContainerInfo where
  name : String
  image : String
  ready : Bool
  deriving Repr, DecidableEq

/-- The `containers` list built by `get_pods` for one pod
(k8s_agent.py:419-426), from the pod's declared containers and its
container statuses. -/
def podContainers (containers : List ContainerSpec)
    (statuses : Option (List ContainerStatus)) : List ContainerInfo :=
  containers.map (fun c =>
    { name := c.name, image := c.image, ready := containerReady c.name statuses })

/-!
Concrete instances used to evaluate the model on explicit inputs.
-/

/-- A deployment manifest document. -/
def depDoc : Doc := { kind := "Deployment", name := "web", ns := none }

/-- A service manifest document. -/
def svcDoc : Doc := { kind := "Service", name := "web-svc", ns := none }

/-- The resource identity of `depDoc`. -/
def depRes : Resource := { kind := "Deployment", ns := "default", name := "web" }

/-- The resource identity of `svcDoc`. -/
def svcRes : Resource := { kind := "Service", ns := "default", name := "web-svc" }

/-- A cluster API in which no resource exists yet and the create of
`svcRes` raises a non-conflict failure with message `boom`. -/
def api6 : K8sApi :=
  { existing := [], createFail := fun r => if r = svcRes then some "boom" else none }

/-- A cluster API in which no resource exists yet and every create
behaves normally. -/
def api7 : K8sApi := { existing := [], createFail := fun _ => none }

/-- A function table with a single operation whose handler raises. -/
def failingMap : String → Option (Handler Unit) := fun fn =>
  if fn = "failing_op" then some (fun _ => (Except.error "kaboom", [])) else none

/-!
The claims.
-/

/-- C1: the claim says every compound "switch-if-needed, then operate"
invocation carrying an explicit target cluster observes the active cluster
equal to its own requested cluster, the whole span being one atomic unit
under a serialization primitive. The source acquires no serialization
primitive anywhere, and the span is not atomic: under the interleaving
A-switch, B-switch, B-operate, A-operate of two compound invocations
targeting "prod" and "dev" from active cluster "prod", invocation A
(requested "prod") executes its operation while the active cluster is
"dev", so its recorded observation pair has requested ≠ observed. -/
theorem c1_compound_switch_then_operate_not_atomic :
    (runSched "prod" "dev" [true, false, false, true] compoundSeq compoundSeq
        { current := "prod", observed := [] }).observed
      = [("dev", "dev"), ("prod", "dev")] ∧
    ¬ (∀ p ∈ (runSched "prod" "dev" [true, false, false, true] compoundSeq compoundSeq
        { current := "prod", observed := [] }).observed, p.1 = p.2) := by
  decide

/-- C2: `computeHealthScore` returns 100 multiplied by
readyNodes/totalNodes when totalNodes > 0 (factor 1 when totalNodes = 0)
and by runningPods/totalPods when totalPods > 0 (factor 1 when
totalPods = 0), rounded to two decimal places; in particular 0/0 nodes and
0/0 pods give 100 and 3/4 nodes with 9/10 pods give 67.5. -/
theorem c2_health_score_formula :
    (∀ rn tn rp tp : ℕ, computeHealthScore rn tn rp tp =
        round2 (100 * (if 0 < tn then (rn : ℚ) / (tn : ℚ) else 1)
                    * (if 0 < tp then (rp : ℚ) / (tp : ℚ) else 1)))
    ∧ computeHealthScore 0 0 0 0 = 100
    ∧ computeHealthScore 3 4 9 10 = 67.5 := by
  refine ⟨fun rn tn rp tp => ?_, ?_, ?_⟩
  · simp only [computeHealthScore]
    split_ifs <;> congr 1 <;> ring
  · norm_num [computeHealthScore, round2, roundHalfEven]
  · norm_num [computeHealthScore, round2, roundHalfEven]

/-- C3: for every registry state and every name not among the registered
clusters, `switch_cluster` returns an error result whose message lists the
registered cluster names, and leaves the agent state (in particular the
active cluster) unchanged. -/
theorem c3_switch_unknown_cluster_not_found (st : AgentState) (name le : String)
    (lo po : Bool) (h : name ∉ st.clusters) :
    (switch_cluster st name lo le po).1.get "status" = some "error" ∧
    (switch_cluster st name lo le po).1.get "message"
      = some ("Cluster " ++ sq ++ name ++ sq ++ " not found. Available clusters: "
          ++ String.intercalate ", " st.clusters) ∧
    (switch_cluster st name lo le po).2 = st := by
  simp [switch_cluster, h, Dict.get, switchNotFoundMsg, List.find?]

/-- Witness for C3: switching to the unregistered name "staging" with
registry ["prod", "dev"] errors, names the registered clusters, and leaves
the state unchanged. -/
theorem c3_switch_unknown_cluster_not_found_witness :
    "staging" ∉ (⟨["prod", "dev"], some "prod"⟩ : AgentState).clusters ∧
    ((switch_cluster ⟨["prod", "dev"], some "prod"⟩ "staging" true "" true).1.get "status"
        = some "error" ∧
     (switch_cluster ⟨["prod", "dev"], some "prod"⟩ "staging" true "" true).1.get "message"
        = some ("Cluster " ++ sq ++ "staging" ++ sq ++ " not found. Available clusters: "
            ++ String.intercalate ", " (⟨["prod", "dev"], some "prod"⟩ : AgentState).clusters) ∧
     (switch_cluster ⟨["prod", "dev"], some "prod"⟩ "staging" true "" true).2
        = ⟨["prod", "dev"], some "prod"⟩) :=
  ⟨by decide,
   c3_switch_unknown_cluster_not_found ⟨["prod", "dev"], some "prod"⟩ "staging" "" true true
     (by decide)⟩

/-- C4 counterexample: the claim says a failed connectivity probe after a
successful switch is reported as a warning field in the result. At the
concrete input (registry ["prod", "dev"], switch to "dev", kubeconfig load
succeeds, probe fails) the switch stands and the outcome is success, but
the result dict holds exactly the keys status, message and cluster — it
has no warning field. -/
theorem c4_probe_failure_no_warning_field_cex :
    (switch_cluster ⟨["prod", "dev"], some "prod"⟩ "dev" true "" false).1.get "status"
      = some "success" ∧
    (switch_cluster ⟨["prod", "dev"], some "prod"⟩ "dev" true "" false).2.current
      = some "dev" ∧
    (switch_cluster ⟨["prod", "dev"], some "prod"⟩ "dev" true "" false).1.get "warning"
      = none ∧
    ((switch_cluster ⟨["prod", "dev"], some "prod"⟩ "dev" true "" false).1.map Prod.fst)
      = ["status", "message", "cluster"] := by
  decide

/-- C4 (amended): for every registered cluster name, when the switch
reassigns the active cluster but the connectivity probe fails, the switch
is not rolled back (the active cluster remains the requested name and the
outcome is success); the probe failure is only logged and the result
carries no warning field. -/
theorem c4_probe_failure_logged_switch_kept (st : AgentState) (name le : String)
    (hmem : name ∈ st.clusters) :
    (switch_cluster st name true le false).1.get "status" = some "success" ∧
    (switch_cluster st name true le false).1.get "cluster" = some name ∧
    (switch_cluster st name true le false).2.current = some name ∧
    (switch_cluster st name true le false).1.get "warning" = none := by
  have hnot : ¬ name ∉ st.clusters := by simp [hmem]
  simp [switch_cluster, hnot, Dict.get, List.find?]

/-- Witness for the amended C4: switching to the registered cluster "dev"
with a failing probe succeeds, sets the active cluster to "dev", and
returns no warning field. -/
theorem c4_probe_failure_logged_switch_kept_witness :
    "dev" ∈ (⟨["prod", "dev"], some "prod"⟩ : AgentState).clusters ∧
    ((switch_cluster ⟨["prod", "dev"], some "prod"⟩ "dev" true "" false).1.get "status"
        = some "success" ∧
     (switch_cluster ⟨["prod", "dev"], some "prod"⟩ "dev" true "" false).1.get "cluster"
        = some "dev" ∧
     (switch_cluster ⟨["prod", "dev"], some "prod"⟩ "dev" true "" false).2.current
        = some "dev" ∧
     (switch_cluster ⟨["prod", "dev"], some "prod"⟩ "dev" true "" false).1.get "warning"
        = none) :=
  ⟨by decide,
   c4_probe_failure_logged_switch_kept ⟨["prod", "dev"], some "prod"⟩ "dev" "" (by decide)⟩

/-- C5 counterexample: the claim says dispatching the scale operation with
replicas = -1 returns an InvalidParameter error and performs no cluster
API call. At the concrete input, the dispatcher passes the negative value
straight through: exactly one cluster patch call is issued, carrying
replicas = -1, and the result is a success, not an error. -/
theorem c5_negative_replicas_dispatched_cex :
    (execute_function true "k8s-agent" (scaleFunctionMap (some "prod") (Except.ok ()))
        "ts" "scale_deployment" ⟨"x", -1, "default"⟩).2
      = [ApiCall.patchScale "x" "default" (-1)] ∧
    (execute_function true "k8s-agent" (scaleFunctionMap (some "prod") (Except.ok ()))
        "ts" "scale_deployment" ⟨"x", -1, "default"⟩).1.get "status"
      = some "success" := by
  decide

/-- C5 (amended): the catalog declares minimum 0 for the replicas
parameter of the scale operation, but the dispatcher performs no parameter
validation: for every deployment name and every negative replicas value,
dispatching the scale operation issues the cluster patch call with that
negative value and returns the operation's success result. -/
theorem c5_negative_replicas_reach_cluster_api (dn nsp ts : String) (r : ℤ)
    (cur : Option String) (h : r < 0) :
    scale_replicas_declared_minimum = some 0 ∧
    (execute_function true "k8s-agent" (scaleFunctionMap cur (Except.ok ()))
        ts "scale_deployment" ⟨dn, r, nsp⟩).2 = [ApiCall.patchScale dn nsp r] ∧
    (execute_function true "k8s-agent" (scaleFunctionMap cur (Except.ok ()))
        ts "scale_deployment" ⟨dn, r, nsp⟩).1.get "status" = some "success" := by
  refine ⟨rfl, ?_, ?_⟩ <;>
    simp [execute_function, scaleFunctionMap, scale_deployment, Dict.get, Dict.set,
      List.find?, List.filter]

/-- Witness for the amended C5 at deployment "x", replicas -1. -/
theorem c5_negative_replicas_reach_cluster_api_witness :
    (-1 : ℤ) < 0 ∧
    (scale_replicas_declared_minimum = some 0 ∧
     (execute_function true "k8s-agent" (scaleFunctionMap (some "prod") (Except.ok ()))
         "ts" "scale_deployment" ⟨"x", -1, "default"⟩).2
       = [ApiCall.patchScale "x" "default" (-1)] ∧
     (execute_function true "k8s-agent" (scaleFunctionMap (some "prod") (Except.ok ()))
         "ts" "scale_deployment" ⟨"x", -1, "default"⟩).1.get "status"
       = some "success") :=
  ⟨by decide,
   c5_negative_replicas_reach_cluster_api "x" "default" "ts" (-1) (some "prod") (by decide)⟩

/-- C6 counterexample: the claim says that when the second document's
create fails with a non-conflict error, the Error result's results field
contains exactly one entry for the first document. At the concrete input
(first Deployment create succeeds, second Service create raises "boom"),
the apply returns an error dict that has no results field at all — the
accumulated partial result is discarded — even though the first create
took effect. -/
theorem c6_error_result_drops_partial_results_cex :
    (apply_yaml (some "prod") [some depDoc, some svcDoc] api6).1
      = ApplyResult.error "boom" (some "prod") ∧
    (apply_yaml (some "prod") [some depDoc, some svcDoc] api6).1.resultsField = none ∧
    (apply_yaml (some "prod") [some depDoc, some svcDoc] api6).2.existing = [depRes] := by
  decide

/-- C6 (amended): with two documents of supported kinds where the first
create succeeds and the second raises a non-conflict failure, the whole
apply aborts and returns an Error result carrying the failure cause; the
partial results accumulated for the first document are discarded (the
error result has no results field), though the first create's effect
persists in the cluster. -/
theorem c6_nonconflict_failure_aborts_without_results (current : Option String)
    (d1 d2 : Doc) (api : K8sApi) (e : String)
    (h1k : d1.kind = "Deployment" ∨ d1.kind = "Service")
    (h2k : d2.kind = "Deployment" ∨ d2.kind = "Service")
    (h1f : api.createFail
      { kind := d1.kind, ns := d1.ns.getD "default", name := d1.name } = none)
    (h1ne : ({ kind := d1.kind, ns := d1.ns.getD "default", name := d1.name } : Resource)
      ∉ api.existing)
    (h2f : api.createFail
      { kind := d2.kind, ns := d2.ns.getD "default", name := d2.name } = some e) :
    (apply_yaml current [some d1, some d2] api).1 = ApplyResult.error e current ∧
    (apply_yaml current [some d1, some d2] api).1.resultsField = none ∧
    (apply_yaml current [some d1, some d2] api).2.existing
      = api.existing
        ++ [{ kind := d1.kind, ns := d1.ns.getD "default", name := d1.name }] := by
  refine ⟨?_, ?_, ?_⟩ <;>
    simp [apply_yaml, applyLoop, h1k, h2k, h1f, h1ne, h2f, ApplyResult.resultsField]

/-- Witness for the amended C6 at the deployment/service pair with an
injected non-conflict failure on the service create. -/
theorem c6_nonconflict_failure_aborts_without_results_witness :
    (depDoc.kind = "Deployment" ∨ depDoc.kind = "Service") ∧
    (svcDoc.kind = "Deployment" ∨ svcDoc.kind = "Service") ∧
    api6.createFail
      { kind := depDoc.kind, ns := depDoc.ns.getD "default", name := depDoc.name } = none ∧
    ({ kind := depDoc.kind, ns := depDoc.ns.getD "default", name := depDoc.name } : Resource)
      ∉ api6.existing ∧
    api6.createFail
      { kind := svcDoc.kind, ns := svcDoc.ns.getD "default", name := svcDoc.name }
      = some "boom" ∧
    ((apply_yaml (some "prod") [some depDoc, some svcDoc] api6).1
        = ApplyResult.error "boom" (some "prod") ∧
     (apply_yaml (some "prod") [some depDoc, some svcDoc] api6).1.resultsField = none ∧
     (apply_yaml (some "prod") [some depDoc, some svcDoc] api6).2.existing
        = api6.existing
          ++ [{ kind := depDoc.kind, ns := depDoc.ns.getD "default", name := depDoc.name }]) :=
  ⟨by decide, by decide, by decide, by decide, by decide,
   c6_nonconflict_failure_aborts_without_results (some "prod") depDoc svcDoc api6 "boom"
     (by decide) (by decide) (by decide) (by decide) (by decide)⟩

/-- C7: for every manifest document of a supported kind whose resource
identity does not yet exist, applying it twice in succession (with the
normally behaving cluster API) yields action "created" for that resource
in the first result and action "updated" for the same identity in the
second. -/
theorem c7_apply_twice_created_then_updated (current : Option String) (d : Doc)
    (api : K8sApi)
    (hkind : d.kind = "Deployment" ∨ d.kind = "Service")
    (hne : ({ kind := d.kind, ns := d.ns.getD "default", name := d.name } : Resource)
      ∉ api.existing)
    (hfail : ∀ r, api.createFail r = none) :
    (apply_yaml current [some d] api).1.resultsField
      = some [{ resource := d.kind ++ "/" ++ d.name, action := "created",
                cluster := current }] ∧
    (apply_yaml current [some d] (apply_yaml current [some d] api).2).1.resultsField
      = some [{ resource := d.kind ++ "/" ++ d.name, action := "updated",
                cluster := current }] := by
  constructor
  · simp [apply_yaml, applyLoop, hkind, hfail, hne, ApplyResult.resultsField]
  · simp [apply_yaml, applyLoop, hkind, hfail, hne, ApplyResult.resultsField]

/-- Witness for C7: applying the deployment document twice against an
empty cluster yields "created" then "updated". -/
theorem c7_apply_twice_created_then_updated_witness :
    (depDoc.kind = "Deployment" ∨ depDoc.kind = "Service") ∧
    ({ kind := depDoc.kind, ns := depDoc.ns.getD "default", name := depDoc.name } : Resource)
      ∉ api7.existing ∧
    ((apply_yaml (some "prod") [some depDoc] api7).1.resultsField
        = some [{ resource := depDoc.kind ++ "/" ++ depDoc.name, action := "created",
                  cluster := some "prod" }] ∧
     (apply_yaml (some "prod") [some depDoc]
         (apply_yaml (some "prod") [some depDoc] api7).2).1.resultsField
        = some [{ resource := depDoc.kind ++ "/" ++ depDoc.name, action := "updated",
                  cluster := some "prod" }]) :=
  ⟨by decide, by decide,
   c7_apply_twice_created_then_updated (some "prod") depDoc api7
     (by decide) (by decide) (fun _ => rfl)⟩

/-- C8: the dispatcher is a total function that always returns a result
dict: invoked before initialization it returns the not-initialized error;
an operation name outside the table yields the unknown-function error; and
a failure raised by the matched operation is captured and converted into
an error result carrying the cause message. -/
theorem c8_dispatch_always_returns_result {α : Type} (initialized : Bool)
    (agent_name ts fn : String) (fm : String → Option (Handler α)) (kw : α) :
    (initialized = false →
      (execute_function initialized agent_name fm ts fn kw).1 =
        [("status", "error"), ("message", "Agent not initialized")]) ∧
    (initialized = true → fm fn = none →
      (execute_function initialized agent_name fm ts fn kw).1 =
        [("status", "error"), ("message", "Unknown function: " ++ fn)]) ∧
    (∀ f e calls, initialized = true → fm fn = some f →
      f kw = (Except.error e, calls) →
      (execute_function initialized agent_name fm ts fn kw).1.get "status"
        = some "error" ∧
      (execute_function initialized agent_name fm ts fn kw).1.get "message" = some e) := by
  refine ⟨fun h0 => ?_, fun h1 h2 => ?_, fun f e calls h1 h2 h3 => ?_⟩
  · simp [execute_function, h0]
  · simp [execute_function, h1, h2]
  · simp [execute_function, h1, h2, h3, Dict.get, List.find?]

/-- Witness for C8: the not-initialized, unknown-name and raising-handler
paths each produce an inspectable error result at concrete inputs. -/
theorem c8_dispatch_always_returns_result_witness :
    (execute_function false "k8s-agent" failingMap "ts" "get_pods" ()).1
      = [("status", "error"), ("message", "Agent not initialized")] ∧
    (execute_function true "k8s-agent" failingMap "ts" "nope" ()).1
      = [("status", "error"), ("message", "Unknown function: " ++ "nope")] ∧
    ((execute_function true "k8s-agent" failingMap "ts" "failing_op" ()).1.get "status"
        = some "error" ∧
     (execute_function true "k8s-agent" failingMap "ts" "failing_op" ()).1.get "message"
        = some "kaboom") :=
  ⟨(c8_dispatch_always_returns_result false "k8s-agent" "ts" "get_pods" failingMap ()).1
      rfl,
   (c8_dispatch_always_returns_result true "k8s-agent" "ts" "nope" failingMap ()).2.1
      rfl (by simp [failingMap]),
   (c8_dispatch_always_returns_result true "k8s-agent" "ts" "failing_op" failingMap ()).2.2
      (fun _ => (Except.error "kaboom", [])) "kaboom" [] rfl (by simp [failingMap]) rfl⟩

/-- C9: for every pod and every entry of the containers list built by
the pod listing, the ready flag is true iff some container-status entry
with the same container name reports ready; and when the pod carries no
container-status data at all, the flag is false. -/
theorem c9_container_ready_iff_matching_status (containers : List ContainerSpec)
    (statuses : Option (List ContainerStatus)) (info : ContainerInfo)
    (hmem : info ∈ podContainers containers statuses) :
    (info.ready = true ↔
      ∃ cs ∈ statuses.getD [], cs.name = info.name ∧ cs.ready = true) ∧
    (statuses = none → info.ready = false) := by
  simp only [podContainers, List.mem_map] at hmem
  obtain ⟨c, _, rfl⟩ := hmem
  constructor
  · simp [containerReady, List.any_eq_true, Bool.and_eq_true, beq_iff_eq]
  · rintro rfl
    simp [containerReady]

/-- Witness for C9: a pod with one declared container and a matching ready
status yields a ready entry satisfying the characterization. -/
theorem c9_container_ready_iff_matching_status_witness :
    (⟨"app", "img", true⟩ : ContainerInfo)
      ∈ podContainers [⟨"app", "img"⟩] (some [⟨"app", true⟩]) ∧
    (((⟨"app", "img", true⟩ : ContainerInfo).ready = true ↔
        ∃ cs ∈ (some [(⟨"app", true⟩ : ContainerStatus)]).getD [],
          cs.name = (⟨"app", "img", true⟩ : ContainerInfo).name ∧ cs.ready = true) ∧
     ((some [(⟨"app", true⟩ : ContainerStatus)]) = none →
        (⟨"app", "img", true⟩ : ContainerInfo).ready = false)) :=
  ⟨by decide,
   c9_container_ready_iff_matching_status [⟨"app", "img"⟩] (some [⟨"app", true⟩])
     ⟨"app", "img", true⟩ (by decide)⟩

/-- C10: when both the node-metrics query and the system-namespace pod
query return error results, the health computation treats them as empty
node and pod sets and returns a success result with health score 100,
0/0 nodes ready and 0/0 system pods running. -/
theorem c10_double_failure_gives_full_health (cur : Option String) (m1 m2 : String) :
    get_cluster_health cur (OpResult.error m1) (OpResult.error m2) =
      OpResult.success
        { cluster_name := cur, health_score := 100, nodes_ready := 0,
          nodes_total := 0, system_pods_running := 0, system_pods_total := 0 } := by
  simp [get_cluster_health]
  norm_num [computeHealthScore, round2, roundHalfEven]

end Kratos
